import Mathlib

/-!
Shallow embedding of `src/server.py`, a Flask mock server with three GET
endpoints (`/data`, `/data/1/sm`, `/data/1/setpoints`) over three
module-level dictionaries (`ZONE_DATA`, `SM_DATA`, `SETPOINTS`).  The only
mutation in the program is `ZONE_DATA["timestamp"] = int(time.time())`
inside the `/data` handler.  We model the mutable module state explicitly,
pass the wall clock (the value of `int(time.time())` at the request) as a
parameter, and model JSON bodies as a small inductive type whose numbers
are rationals (all literals in the source are exact decimals or integers;
no arithmetic is ever performed on them).
-/

/-- JSON values as produced by Flask's `jsonify` on the dictionaries of the
source: numbers and string-keyed objects (in insertion order). -/
inductive Json where
  | num (q : ℚ)
  | obj (fields : List (String × Json))
deriving Repr

/-- The keys of a JSON object (empty for a number). -/
def Json.keys : Json → List String
  | .num _ => []
  | .obj fields => fields.map Prod.fst

/-- Look up a key in a JSON object, first match wins (a number has none). -/
def Json.lookup : Json → String → Option Json
  | .num _, _ => none
  | .obj fields, k => (fields.find? (fun p => p.fst = k)).map Prod.snd

/-- The 17 fields of `ZONE_DATA["payload"]` in `src/server.py`. -/
structure ZonePayload where
  temperature : ℚ
  humidity : ℚ
  lux : ℚ
  ph : ℚ
  ec : ℚ
  water_level : ℚ
  fan_status : ℚ
  light_status : ℚ
  curtain_status : ℚ
  valve_status : ℚ
  water_pump_status : ℚ
  fogger_status : ℚ
  tp4_temperature : ℚ
  ec_a : ℚ
  ec_b : ℚ
  macro_status : ℚ
  micro_status : ℚ
deriving DecidableEq, Repr

/-- `ZONE_DATA`: a timestamp (unix seconds, `int(time.time())`) plus the
sensor payload. -/
structure ZoneReading where
  timestamp : ℕ
  payload : ZonePayload
deriving DecidableEq, Repr

/-- `SM_DATA`: the soil-moisture record.  Its `payload` dict is kept as an
association list in the source's insertion order. -/
structure SmData where
  no_of_soil_sensors : ℕ
  payload : List (String × ℚ)
deriving DecidableEq, Repr

/-- `SETPOINTS`: the setpoint configuration.  The JSON keys are
hyphenated (`LUX-MINsetpoint` …); the fields here follow the spec's
`SetpointConfig` names and `setpointsToJson` restores the source keys. -/
structure SetpointConfig where
  lux_min : ℚ
  lux_max : ℚ
  ec_target : ℚ
deriving DecidableEq, Repr

/-- The constant payload literal of `ZONE_DATA` in `src/server.py`. -/
def ZONE_PAYLOAD : ZonePayload :=
  { temperature := 16.9
    humidity := 33.4
    lux := 6551.6
    ph := 24.0
    ec := 0.1
    water_level := 1
    fan_status := 1
    light_status := 1
    curtain_status := 1
    valve_status := 0
    water_pump_status := 0
    fogger_status := 1
    tp4_temperature := 18.2
    ec_a := 0.4
    ec_b := 0.6
    macro_status := 1
    micro_status := 0 }

/-- `ZONE_DATA` as built at module load: `timestamp` is the load-time clock
value `t0`, the payload is the literal constant. -/
def ZONE_DATA (t0 : ℕ) : ZoneReading :=
  { timestamp := t0, payload := ZONE_PAYLOAD }

/-- The `SM_DATA` literal of `src/server.py`. -/
def SM_DATA : SmData :=
  { no_of_soil_sensors := 4
    payload :=
      [("soil_moisture_1", 45), ("soil_moisture_2", 47),
       ("soil_moisture_3", 44), ("soil_moisture_4", 46)] }

/-- The `SETPOINTS` literal of `src/server.py`. -/
def SETPOINTS : SetpointConfig :=
  { lux_min := 3000, lux_max := 7000, ec_target := 1.5 }

/-- `jsonify` of the zone payload dict, keys in source insertion order. -/
def zonePayloadToJson (p : ZonePayload) : Json :=
  .obj
    [("temperature", .num p.temperature),
     ("humidity", .num p.humidity),
     ("lux", .num p.lux),
     ("ph", .num p.ph),
     ("ec", .num p.ec),
     ("water_level", .num p.water_level),
     ("fan_status", .num p.fan_status),
     ("light_status", .num p.light_status),
     ("curtain_status", .num p.curtain_status),
     ("valve_status", .num p.valve_status),
     ("water_pump_status", .num p.water_pump_status),
     ("fogger_status", .num p.fogger_status),
     ("tp4_temperature", .num p.tp4_temperature),
     ("ec_a", .num p.ec_a),
     ("ec_b", .num p.ec_b),
     ("macro_status", .num p.macro_status),
     ("micro_status", .num p.micro_status)]

/-- `jsonify(ZONE_DATA)`. -/
def zoneToJson (z : ZoneReading) : Json :=
  .obj [("timestamp", .num z.timestamp), ("payload", zonePayloadToJson z.payload)]

/-- `jsonify(SM_DATA)`. -/
def smToJson (d : SmData) : Json :=
  .obj
    [("no_of_soil_sensors", .num d.no_of_soil_sensors),
     ("payload", .obj (d.payload.map (fun kv => (kv.fst, Json.num kv.snd))))]

/-- `jsonify(SETPOINTS)` with the source's hyphenated keys. -/
def setpointsToJson (c : SetpointConfig) : Json :=
  .obj
    [("LUX-MINsetpoint", .num c.lux_min),
     ("LUX-MAXsetpoint", .num c.lux_max),
     ("EC-setpoint", .num c.ec_target)]

/-- The mutable module-level state of the process: the three dictionaries
held by `src/server.py`. -/
structure ServerState where
  zone : ZoneReading
  sm : SmData
  setpoints : SetpointConfig
deriving Repr

/-- The state right after module load at clock value `t0`. -/
def initState (t0 : ℕ) : ServerState :=
  { zone := ZONE_DATA t0, sm := SM_DATA, setpoints := SETPOINTS }

/-- An HTTP response: status code and JSON body. -/
structure Response where
  status : ℕ
  body : Json
deriving Repr

/-- The three routes registered on the Flask app. -/
inductive Request where
  | getData
  | getSm
  | getSetpoints
deriving DecidableEq, Repr

/-- The `/data` handler `data()`: overwrite `ZONE_DATA["timestamp"]` with
`int(time.time())` (the `clock` argument), then `jsonify` the record. -/
def dataHandler (clock : ℕ) (s : ServerState) : ServerState × Response :=
  let s' := { s with zone := { s.zone with timestamp := clock } }
  (s', { status := 200, body := zoneToJson s'.zone })

/-- The `/data/1/sm` handler `sm()`: `jsonify(SM_DATA)` with no mutation. -/
def smHandler (s : ServerState) : ServerState × Response :=
  (s, { status := 200, body := smToJson s.sm })

/-- The `/data/1/setpoints` handler `setpoints()`: `jsonify(SETPOINTS)`
with no mutation. -/
def setpointsHandler (s : ServerState) : ServerState × Response :=
  (s, { status := 200, body := setpointsToJson s.setpoints })

/-- Dispatch a request at clock value `clock` in state `s`. -/
def handle (req : Request) (clock : ℕ) (s : ServerState) :
    ServerState × Response :=
  match req with
  | .getData => dataHandler clock s
  | .getSm => smHandler s
  | .getSetpoints => setpointsHandler s

/-- States the process can be in: module load at some clock value, followed
by any sequence of handled requests. -/
inductive Reachable : ServerState → Prop where
  | init (t0 : ℕ) : Reachable (initState t0)
  | step (s : ServerState) (req : Request) (clock : ℕ) :
      Reachable s → Reachable (handle req clock s).1

/-- Every reachable state is `initState` of its own stored timestamp: the
payload and the two immutable records never move from their literals. -/
theorem reachable_char (s : ServerState) (h : Reachable s) :
    s = initState s.zone.timestamp := by
  induction h with
  | init t0 => rfl
  | step s req clock _ ih =>
      cases req with
      | getData =>
          simp only [handle, dataHandler]
          rw [ih]
          rfl
      | getSm =>
          simpa [handle, smHandler] using ih
      | getSetpoints =>
          simpa [handle, setpointsHandler] using ih

/-- C1: every `GET /data` response has status 200 and body exactly
`{timestamp, payload}` where `payload` has exactly the 17 named fields with
their constant values and `timestamp` is the clock value at the request. -/
theorem data_endpoint_shape (s : ServerState) (clock : ℕ) (h : Reachable s) :
    (handle .getData clock s).2.status = 200 ∧
    (handle .getData clock s).2.body =
      Json.obj
        [("timestamp", .num (clock : ℚ)),
         ("payload", .obj
            [("temperature", .num 16.9),
             ("humidity", .num 33.4),
             ("lux", .num 6551.6),
             ("ph", .num 24.0),
             ("ec", .num 0.1),
             ("water_level", .num 1),
             ("fan_status", .num 1),
             ("light_status", .num 1),
             ("curtain_status", .num 1),
             ("valve_status", .num 0),
             ("water_pump_status", .num 0),
             ("fogger_status", .num 1),
             ("tp4_temperature", .num 18.2),
             ("ec_a", .num 0.4),
             ("ec_b", .num 0.6),
             ("macro_status", .num 1),
             ("micro_status", .num 0)])] := by
  rw [reachable_char s h]
  exact ⟨rfl, rfl⟩

/-- C1 witness at a concrete reachable state and clock. -/
theorem data_endpoint_shape_witness :
    (handle .getData 5 (initState 0)).2.status = 200 ∧
    (handle .getData 5 (initState 0)).2.body =
      Json.obj
        [("timestamp", .num (5 : ℚ)),
         ("payload", .obj
            [("temperature", .num 16.9),
             ("humidity", .num 33.4),
             ("lux", .num 6551.6),
             ("ph", .num 24.0),
             ("ec", .num 0.1),
             ("water_level", .num 1),
             ("fan_status", .num 1),
             ("light_status", .num 1),
             ("curtain_status", .num 1),
             ("valve_status", .num 0),
             ("water_pump_status", .num 0),
             ("fogger_status", .num 1),
             ("tp4_temperature", .num 18.2),
             ("ec_a", .num 0.4),
             ("ec_b", .num 0.6),
             ("macro_status", .num 1),
             ("micro_status", .num 0)])] := by
  have := data_endpoint_shape (initState 0) 5 (Reachable.init 0)
  simpa using this

/-- C2: every `GET /data/1/sm` response is exactly
`{no_of_soil_sensors: 4, payload: {soil_moisture_1: 45, soil_moisture_2: 47,
soil_moisture_3: 44, soil_moisture_4: 46}}` with status 200, identical
across all calls regardless of prior requests. -/
theorem sm_endpoint_value (s : ServerState) (clock : ℕ) (h : Reachable s) :
    (handle .getSm clock s).2 =
      { status := 200
        body := Json.obj
          [("no_of_soil_sensors", .num 4),
           ("payload", .obj
              [("soil_moisture_1", .num 45),
               ("soil_moisture_2", .num 47),
               ("soil_moisture_3", .num 44),
               ("soil_moisture_4", .num 46)])] } := by
  rw [reachable_char s h]
  rfl

/-- C2 witness at a concrete reachable state and clock. -/
theorem sm_endpoint_value_witness :
    (handle .getSm 7 (initState 0)).2 =
      { status := 200
        body := Json.obj
          [("no_of_soil_sensors", .num 4),
           ("payload", .obj
              [("soil_moisture_1", .num 45),
               ("soil_moisture_2", .num 47),
               ("soil_moisture_3", .num 44),
               ("soil_moisture_4", .num 46)])] } :=
  sm_endpoint_value (initState 0) 7 (Reachable.init 0)

/-- C3: every `GET /data/1/setpoints` response is exactly
`{LUX-MINsetpoint: 3000, LUX-MAXsetpoint: 7000, EC-setpoint: 1.5}` with
status 200, identical across all calls. -/
theorem setpoints_endpoint_value (s : ServerState) (clock : ℕ)
    (h : Reachable s) :
    (handle .getSetpoints clock s).2 =
      { status := 200
        body := Json.obj
          [("LUX-MINsetpoint", .num 3000),
           ("LUX-MAXsetpoint", .num 7000),
           ("EC-setpoint", .num 1.5)] } := by
  rw [reachable_char s h]
  rfl

/-- C3 witness at a concrete reachable state and clock. -/
theorem setpoints_endpoint_value_witness :
    (handle .getSetpoints 7 (initState 0)).2 =
      { status := 200
        body := Json.obj
          [("LUX-MINsetpoint", .num 3000),
           ("LUX-MAXsetpoint", .num 7000),
           ("EC-setpoint", .num 1.5)] } :=
  setpoints_endpoint_value (initState 0) 7 (Reachable.init 0)

/-- C4: the `/data` handler writes only the zone timestamp: from any state
and clock, the zone payload, the soil-moisture record and the setpoint
record are all unchanged, and the stored timestamp becomes the clock. -/
theorem data_frame (s : ServerState) (clock : ℕ) :
    (handle .getData clock s).1.zone.payload = s.zone.payload ∧
    (handle .getData clock s).1.sm = s.sm ∧
    (handle .getData clock s).1.setpoints = s.setpoints ∧
    (handle .getData clock s).1.zone.timestamp = clock :=
  ⟨rfl, rfl, rfl, rfl⟩

/-- C5: for two successive `/data` calls whose clock values are
non-decreasing, each response carries its own clock as `timestamp`, and the
two returned timestamps are non-decreasing. -/
theorem data_timestamps_monotone (s : ServerState) (c1 c2 : ℕ)
    (h : c1 ≤ c2) :
    (handle .getData c1 s).2.body.lookup "timestamp" =
      some (.num (c1 : ℚ)) ∧
    (handle .getData c2 (handle .getData c1 s).1).2.body.lookup "timestamp" =
      some (.num (c2 : ℚ)) ∧
    (c1 : ℚ) ≤ (c2 : ℚ) := by
  refine ⟨rfl, rfl, ?_⟩
  exact_mod_cast h

/-- C5 witness at concrete clocks 10 ≤ 11. -/
theorem data_timestamps_monotone_witness :
    (handle .getData 10 (initState 0)).2.body.lookup "timestamp" =
      some (.num (10 : ℚ)) ∧
    (handle .getData 11
        (handle .getData 10 (initState 0)).1).2.body.lookup "timestamp" =
      some (.num (11 : ℚ)) ∧
    (10 : ℚ) ≤ (11 : ℚ) :=
  data_timestamps_monotone (initState 0) 10 11 (by norm_num)

/-- C6: the setpoint invariant `lux_min < lux_max` holds for the initial
`SETPOINTS` literal (3000 < 7000), and every operation of the server leaves
the setpoint record untouched, so the invariant is preserved forever. -/
theorem setpoints_lux_invariant :
    SETPOINTS.lux_min < SETPOINTS.lux_max ∧
    ∀ (s : ServerState) (req : Request) (clock : ℕ),
      (handle req clock s).1.setpoints = s.setpoints := by
  refine ⟨by norm_num [SETPOINTS], ?_⟩
  intro s req clock
  cases req <;> rfl

/-- C7: no handler modifies `SM_DATA` or `SETPOINTS`: from any reachable
state they still hold their startup literals, stay unchanged across any
request, and the `sm` and `setpoints` endpoints return exactly their
startup serializations. -/
theorem records_immutable (s : ServerState) (req : Request) (clock : ℕ)
    (h : Reachable s) :
    (handle req clock s).1.sm = s.sm ∧
    (handle req clock s).1.setpoints = s.setpoints ∧
    s.sm = SM_DATA ∧
    s.setpoints = SETPOINTS ∧
    (handle .getSm clock s).2.body = smToJson SM_DATA ∧
    (handle .getSetpoints clock s).2.body = setpointsToJson SETPOINTS := by
  rw [reachable_char s h]
  cases req <;> exact ⟨rfl, rfl, rfl, rfl, rfl, rfl⟩

/-- C7 witness at a concrete reachable state, request and clock. -/
theorem records_immutable_witness :
    (handle .getData 9 (initState 2)).1.sm = (initState 2).sm ∧
    (handle .getData 9 (initState 2)).1.setpoints = (initState 2).setpoints ∧
    (initState 2).sm = SM_DATA ∧
    (initState 2).setpoints = SETPOINTS ∧
    (handle .getSm 9 (initState 2)).2.body = smToJson SM_DATA ∧
    (handle .getSetpoints 9 (initState 2)).2.body =
      setpointsToJson SETPOINTS :=
  records_immutable (initState 2) .getData 9 (Reachable.init 2)

/-- C8: in `SM_DATA`, `no_of_soil_sensors` equals the number of payload
entries, and the payload keys are exactly `soil_moisture_1` …
`soil_moisture_4` for indices 1 through `no_of_soil_sensors`. -/
theorem sm_data_consistent :
    SM_DATA.no_of_soil_sensors = SM_DATA.payload.length ∧
    SM_DATA.payload.map Prod.fst =
      (List.range SM_DATA.no_of_soil_sensors).map
        (fun i => "soil_moisture_" ++ toString (i + 1)) :=
  ⟨rfl, rfl⟩

/-- C9: every handler is total and always answers with status 200; no
error branch exists for any request, state or clock value. -/
theorem handlers_always_200 (s : ServerState) (req : Request) (clock : ℕ) :
    (handle req clock s).2.status = 200 := by
  cases req <;> rfl

/-- C10: the `/data` handler is deterministic in the clock alone: two runs
from any two (reachable) process states with the same clock value produce
the same response and the same resulting state, and running it twice at
one clock value equals running it once (idempotence). -/
theorem data_deterministic_in_clock (s₁ s₂ : ServerState) (clock : ℕ)
    (h₁ : Reachable s₁) (h₂ : Reachable s₂) :
    (handle .getData clock s₁).2 = (handle .getData clock s₂).2 ∧
    (handle .getData clock s₁).1 = (handle .getData clock s₂).1 ∧
    handle .getData clock (handle .getData clock s₁).1 =
      handle .getData clock s₁ := by
  rw [reachable_char s₁ h₁, reachable_char s₂ h₂]
  exact ⟨rfl, rfl, rfl⟩

/-- C10 witness at two concrete reachable states with distinct stored
timestamps and a common clock. -/
theorem data_deterministic_in_clock_witness :
    (handle .getData 7 (initState 0)).2 =
      (handle .getData 7 (initState 3)).2 ∧
    (handle .getData 7 (initState 0)).1 =
      (handle .getData 7 (initState 3)).1 ∧
    handle .getData 7 (handle .getData 7 (initState 0)).1 =
      handle .getData 7 (initState 0) :=
  data_deterministic_in_clock (initState 0) (initState 3) 7
    (Reachable.init 0) (Reachable.init 3)
